import Mathlib

/-!
Shallow embedding of the authentication/session core of the `tkhan-chat`
backend (Go): the account lifecycle engine (`internal/usecase/auth/auth_usecase.go`),
the JWT session service (`internal/usecase/auth/jwt_service.go`), the refresh
token use case (`internal/usecase/auth/refresh_token_usecase.go`), the OAuth
callback resolution (`internal/usecase/auth/oauth_usecase.go`) and the HTTP
refresh endpoint (`internal/delivery/http/handler/user_handler.go`).

Go `time.Time` instants are modelled as integer nanoseconds; `t1.After t2`
is `t2 < t1` and `t1.Before t2` is `t1 < t2`.  The user and refresh-token
stores are modelled as lists; a SQL `WHERE ... First` lookup is `List.find?`
and a GORM `Save` (update by primary key) replaces every row with the same id.
-/

namespace TkhanChat

/-- Go `time.Time` as nanoseconds since the epoch; the zero value
`time.Time\x7b\x7d` is `0`. -/
abbrev Instant := Int

/-- Go `time.Minute` in nanoseconds. -/
def minuteNs : Int := 60 * 1000000000

/-- Go `time.Hour` in nanoseconds. -/
def hourNs : Int := 60 * minuteNs

/-- Go `24 * time.Hour` in nanoseconds. -/
def dayNs : Int := 24 * hourNs

/-- Model of `bcrypt.GenerateFromPassword` (external collaborator,
`golang.org/x/crypto/bcrypt`): an injective tagging of the plaintext, so that
`bcryptCompare (bcryptHash p) q` succeeds exactly when `p = q`, which is the
behaviour of bcrypt up to hash collisions. -/
def bcryptHash (password : String) : String := "$2a$10$" ++ password

/-- Model of `bcrypt.CompareHashAndPassword`: succeeds (returns `true`) iff
the hash is the hash of the password. -/
def bcryptCompare (hash password : String) : Bool := hash == bcryptHash password

/-- The `entity.User` domain record.  The field set is the one used by
`auth_usecase.go` / `oauth_usecase.go` and persisted by the GORM model
`UserModel` in `internal/repository/postgres/user_repository.go` (the token
expiries are stored as integer timestamps there; the Go zero `time.Time`
maps to `0`). -/
structure User where
  ID : String
  Email : String
  Password : String
  Name : String
  Avatar : String
  Phone : String
  OAuthProvider : String
  OAuthID : String
  EmailVerified : Bool
  VerificationToken : String
  VerificationTokenExpiresAt : Instant
  ResetPasswordToken : String
  ResetPasswordTokenExpiresAt : Instant
  CreatedAt : Instant
  UpdatedAt : Instant
  deriving Repr, DecidableEq

/-- `entity.User.IsOAuthUser`: both OAuth fields non-empty. -/
def User.IsOAuthUser (u : User) : Bool :=
  u.OAuthProvider != "" && u.OAuthID != ""

/-- `entity.NewOAuthUser`: a fresh OAuth-only account (no password).  Fields
the constructor does not set carry the Go zero value. -/
def NewOAuthUser (email name avatar provider oauthID : String)
    (newID : String) (now : Instant) : User :=
  { ID := newID
    Email := email
    Password := ""
    Name := name
    Avatar := avatar
    Phone := ""
    OAuthProvider := provider
    OAuthID := oauthID
    EmailVerified := false
    VerificationToken := ""
    VerificationTokenExpiresAt := 0
    ResetPasswordToken := ""
    ResetPasswordTokenExpiresAt := 0
    CreatedAt := now
    UpdatedAt := now }

/-- The user table (`users`), as the list of its rows. -/
abbrev UserStore := List User

/-- `userRepository.GetByEmail`: `WHERE email = ? ... First`. -/
def getByEmail (s : UserStore) (email : String) : Option User :=
  s.find? (fun u => u.Email == email)

/-- `userRepository.GetByVerificationToken`: `WHERE verification_token = ?`. -/
def getByVerificationToken (s : UserStore) (token : String) : Option User :=
  s.find? (fun u => u.VerificationToken == token)

/-- `userRepository.GetByResetPasswordToken`: `WHERE reset_password_token = ?`. -/
def getByResetPasswordToken (s : UserStore) (token : String) : Option User :=
  s.find? (fun u => u.ResetPasswordToken == token)

/-- `userRepository.GetByOAuthID`: `WHERE oauth_provider = ? AND oauth_id = ?`. -/
def getByOAuthID (s : UserStore) (provider oauthID : String) : Option User :=
  s.find? (fun u => u.OAuthProvider == provider && u.OAuthID == oauthID)

/-- `userRepository.Update` (`db.Save`): replace the row(s) with the user's
primary key. -/
def updateUser (s : UserStore) (u : User) : UserStore :=
  s.map (fun v => if v.ID == u.ID then u else v)

/-- `userRepository.Create` (`db.Create`): insert a new row. -/
def createUser (s : UserStore) (u : User) : UserStore := s ++ [u]

/-- The closed set of errors the modelled operations return: the
`DomainError` values of `internal/domain/errors/errors.go` that these code
paths use, plus the two non-domain errors built with `fmt.Errorf` (the
OAuth-account login rejection and the reset-email send failure) and the
handler-level 401 rejection in `user_handler.go`. -/
inductive AuthError where
  | invalidCredentials
  | oauthAccount
  | emailNotVerified
  | invalidVerificationToken
  | verificationTokenExpired
  | invalidResetToken
  | resetTokenExpired
  | invalidToken
  | tokenExpired
  | tokenRevoked
  | refreshTokenNotFound
  | emailSendFailed
  | unauthorized
  deriving Repr, DecidableEq

/-- `authUseCase.Login` (`auth_usecase.go` lines 82-105): look up by email
(miss ⇒ `ErrInvalidCredentials`), reject OAuth users, reject unverified
emails, then compare the bcrypt hash (mismatch ⇒ `ErrInvalidCredentials`).
Like the other operations the store is threaded through; `Login` makes no
mutating repository call, so every path returns the store unchanged. -/
def Login (s : UserStore) (email password : String) :
    Except AuthError User × UserStore :=
  match getByEmail s email with
  | none => (.error .invalidCredentials, s)
  | some user =>
    if user.IsOAuthUser then (.error .oauthAccount, s)
    else if !user.EmailVerified then (.error .emailNotVerified, s)
    else if !bcryptCompare user.Password password then (.error .invalidCredentials, s)
    else (.ok user, s)

/-- `authUseCase.VerifyEmail` (`auth_usecase.go` lines 108-136): look up by
verification token (miss ⇒ `ErrInvalidVerificationToken`), reject if
`time.Now().After(expiry)`, no-op if already verified, otherwise set the
flag, clear the token fields and update the store. -/
def VerifyEmail (s : UserStore) (token : String) (now : Instant) :
    Except AuthError Unit × UserStore :=
  match getByVerificationToken s token with
  | none => (.error .invalidVerificationToken, s)
  | some user =>
    if user.VerificationTokenExpiresAt < now then
      (.error .verificationTokenExpired, s)
    else if user.EmailVerified then
      (.ok (), s)
    else
      let user' := { user with
        EmailVerified := true
        VerificationToken := ""
        VerificationTokenExpiresAt := 0 }
      (.ok (), updateUser s user')

/-- `authUseCase.ForgotPassword` (`auth_usecase.go` lines 174-208): unknown
email ⇒ success with no change; OAuth user ⇒ success with no change;
otherwise store a fresh reset token with a 1-hour window and send the reset
email.  The freshly generated random token is passed in as `newToken`
(`generateToken` reads `crypto/rand`); `emailOk` is the outcome of the
`SendPasswordResetEmail` collaborator, whose failure the code returns as an
error after the update has been persisted. -/
def ForgotPassword (s : UserStore) (email : String) (now : Instant)
    (newToken : String) (emailOk : Bool) : Except AuthError Unit × UserStore :=
  match getByEmail s email with
  | none => (.ok (), s)
  | some user =>
    if user.IsOAuthUser then (.ok (), s)
    else
      let user' := { user with
        ResetPasswordToken := newToken
        ResetPasswordTokenExpiresAt := now + hourNs }
      let s' := updateUser s user'
      if emailOk then (.ok (), s') else (.error .emailSendFailed, s')

/-- `authUseCase.ResetPassword` (`auth_usecase.go` lines 211-240): look up by
reset token (miss ⇒ `ErrInvalidResetToken`), reject if expired, otherwise
replace the password with the hash of the new one and clear the reset-token
fields in the same update. -/
def ResetPassword (s : UserStore) (token newPassword : String) (now : Instant) :
    Except AuthError Unit × UserStore :=
  match getByResetPasswordToken s token with
  | none => (.error .invalidResetToken, s)
  | some user =>
    if user.ResetPasswordTokenExpiresAt < now then
      (.error .resetTokenExpired, s)
    else
      let user' := { user with
        Password := bcryptHash newPassword
        ResetPasswordToken := ""
        ResetPasswordTokenExpiresAt := 0 }
      (.ok (), updateUser s user')

/-! ## JWT session service (`jwt_service.go`) -/

/-- `auth.TokenType` (`jwt_service.go`): `access` or `refresh`. -/
inductive TokenType where
  | access
  | refresh
  deriving Repr, DecidableEq

/-- `auth.JWTClaims`: user id, token type, and the registered claims the
service sets (`exp`, `iat`, `nbf`). -/
structure JWTClaims where
  userID : String
  tokenType : TokenType
  expiresAt : Instant
  issuedAt : Instant
  notBefore : Instant
  deriving Repr, DecidableEq

/-- The signing method recorded in a JWT header; the service signs with
HS256 and `ValidateToken`'s keyfunc accepts exactly the HMAC family. -/
inductive SigningMethod where
  | hmacSHA256
  | nonHMAC
  deriving Repr, DecidableEq

/-- A signed JWT in transit, modelled symbolically: its claims, the header's
signing method, and the key the signature was produced with.  The compact
serialization is injective in these three components, so equality of token
strings is equality of `SignedToken` values. -/
structure SignedToken where
  claims : JWTClaims
  method : SigningMethod
  signingKey : String
  deriving Repr, DecidableEq

/-- The `jwtService` struct: symmetric key and the two configured TTLs. -/
structure JwtService where
  secretKey : String
  accessTokenExpireMinutes : Int
  refreshTokenExpireDays : Int
  deriving Repr, DecidableEq

/-- Model of `jwt.ParseWithClaims` (external collaborator,
`github.com/golang-jwt/jwt/v5`) as called by `ValidateToken`: the keyfunc
rejects non-HMAC signing methods, the signature check rejects a token signed
with a different key, and — because v5 validates the registered claims by
default (no `WithoutClaimsValidation` parser option is passed) — a token
whose `exp` has passed or whose `nbf` has not yet arrived makes the parse
itself return an error (`jwt.ErrTokenExpired` / `jwt.ErrTokenNotValidYet`
wrapped in the parse error).  The distinct error causes are collapsed to
`Unit` because `ValidateToken` maps every parse error to the same value. -/
def parseWithClaims (tok : SignedToken) (secretKey : String) (now : Instant) :
    Except Unit JWTClaims :=
  if tok.method != SigningMethod.hmacSHA256 then .error ()
  else if tok.signingKey != secretKey then .error ()
  else if tok.claims.expiresAt < now then .error ()
  else if now < tok.claims.notBefore then .error ()
  else .ok tok.claims

/-- `jwtService.generateToken`: claims {userID, tokenType, exp = now+duration,
iat = now, nbf = now} signed with HS256 under the service key. -/
def generateToken (svc : JwtService) (userID : String) (tokenType : TokenType)
    (duration : Int) (now : Instant) : SignedToken :=
  { claims :=
      { userID := userID
        tokenType := tokenType
        expiresAt := now + duration
        issuedAt := now
        notBefore := now }
    method := SigningMethod.hmacSHA256
    signingKey := svc.secretKey }

/-- `jwtService.GenerateAccessToken`: access token with the minutes-scale TTL. -/
def GenerateAccessToken (svc : JwtService) (userID : String) (now : Instant) :
    SignedToken :=
  generateToken svc userID TokenType.access (minuteNs * svc.accessTokenExpireMinutes) now

/-- `jwtService.GenerateRefreshToken`: refresh token with the days-scale TTL. -/
def GenerateRefreshToken (svc : JwtService) (userID : String) (now : Instant) :
    SignedToken :=
  generateToken svc userID TokenType.refresh (dayNs * svc.refreshTokenExpireDays) now

/-- `jwtService.GetRefreshTokenExpiration`. -/
def GetRefreshTokenExpiration (svc : JwtService) : Int :=
  dayNs * svc.refreshTokenExpireDays

/-- `jwtService.ValidateToken` (`jwt_service.go` lines 74-103): parse (any
parse error ⇒ `ErrInvalidToken`), require the expected token type
(mismatch ⇒ `ErrInvalidToken`), then check `claims.ExpiresAt.Before(now)`
(⇒ `ErrTokenExpired`), else return the claims. -/
def ValidateToken (svc : JwtService) (tok : SignedToken)
    (expectedType : TokenType) (now : Instant) : Except AuthError JWTClaims :=
  match parseWithClaims tok svc.secretKey now with
  | .error _ => .error .invalidToken
  | .ok claims =>
    if claims.tokenType != expectedType then .error .invalidToken
    else if claims.expiresAt < now then .error .tokenExpired
    else .ok claims

/-! ## Refresh token store and use case (`refresh_token.go`,
`refresh_token_usecase.go`, `refresh_token_repository.go`) -/

/-- The `entity.RefreshToken` record.  The opaque `token` column holds the
JWT's compact serialization, modelled as the `SignedToken` it determines. -/
structure RefreshTokenRec where
  ID : String
  userID : String
  token : SignedToken
  expiresAt : Instant
  createdAt : Instant
  revokedAt : Option Instant
  deriving Repr, DecidableEq

/-- `entity.RefreshToken.IsValid`: not revoked and `time.Now().Before(ExpiresAt)`. -/
def RefreshTokenRec.IsValid (rt : RefreshTokenRec) (now : Instant) : Bool :=
  rt.revokedAt == none && now < rt.expiresAt

/-- `entity.NewRefreshToken` (uuid passed in as `newID`). -/
def NewRefreshToken (userID : String) (token : SignedToken) (expiresAt : Instant)
    (newID : String) (now : Instant) : RefreshTokenRec :=
  { ID := newID
    userID := userID
    token := token
    expiresAt := expiresAt
    createdAt := now
    revokedAt := none }

/-- The refresh token table (`refresh_tokens`), as the list of its rows. -/
abbrev RefreshStore := List RefreshTokenRec

/-- `refreshTokenRepository.GetByToken`: `WHERE token = ? ... First`. -/
def getRefreshByToken (s : RefreshStore) (token : SignedToken) :
    Option RefreshTokenRec :=
  s.find? (fun rt => rt.token == token)

/-- `refreshTokenRepository.Revoke`: `UPDATE ... SET revoked_at = now WHERE
token = ?` — sets the revocation timestamp on every row holding the token. -/
def revokeRefreshToken (s : RefreshStore) (token : SignedToken) (now : Instant) :
    RefreshStore :=
  s.map (fun rt => if rt.token == token then { rt with revokedAt := some now } else rt)

/-- `refreshTokenUseCase.CreateRefreshToken` on top of
`refreshTokenRepository.Create`: insert a fresh record. -/
def createRefreshToken (s : RefreshStore) (userID : String) (token : SignedToken)
    (expiresAt : Instant) (newID : String) (now : Instant) : RefreshStore :=
  s ++ [NewRefreshToken userID token expiresAt newID now]

/-- `refreshTokenUseCase.ValidateRefreshToken` (`refresh_token_usecase.go`
lines 36-50): miss ⇒ `ErrRefreshTokenNotFound`; invalid record ⇒
`ErrTokenRevoked` when the revocation timestamp is set, else `ErrTokenExpired`. -/
def ValidateRefreshToken (s : RefreshStore) (token : SignedToken) (now : Instant) :
    Except AuthError RefreshTokenRec :=
  match getRefreshByToken s token with
  | none => .error .refreshTokenNotFound
  | some rt =>
    if !rt.IsValid now then
      if rt.revokedAt != none then .error .tokenRevoked
      else .error .tokenExpired
    else .ok rt

/-- `UserHandler.RefreshToken` (`user_handler.go` lines 110-176): JWT-validate
the presented token as a refresh token, validate it in the store, require the
store record's user id to equal the claims' user id (else a 401 rejection),
then issue a new access+refresh pair, revoke the old store record and persist
the new refresh token with expiry `now + GetRefreshTokenExpiration`.  The
uuid of the new store row is passed in as `newID`. -/
def RefreshTokenEndpoint (svc : JwtService) (store : RefreshStore)
    (reqToken : SignedToken) (now : Instant) (newID : String) :
    Except AuthError (SignedToken × SignedToken) × RefreshStore :=
  match ValidateToken svc reqToken TokenType.refresh now with
  | .error e => (.error e, store)
  | .ok claims =>
    match ValidateRefreshToken store reqToken now with
    | .error e => (.error e, store)
    | .ok storedToken =>
      if storedToken.userID != claims.userID then (.error .unauthorized, store)
      else
        let newAccessToken := GenerateAccessToken svc claims.userID now
        let newRefreshToken := GenerateRefreshToken svc claims.userID now
        let store' := revokeRefreshToken store reqToken now
        let store'' := createRefreshToken store' claims.userID newRefreshToken
          (now + GetRefreshTokenExpiration svc) newID now
        (.ok (newAccessToken, newRefreshToken), store'')

/-! ## OAuth callback resolution (`oauth_usecase.go`) -/

/-- The identity claims obtained from Google (`GoogleUserInfo`), restricted
to the fields `HandleGoogleCallback` uses. -/
structure GoogleUserInfo where
  ID : String
  Email : String
  Name : String
  Picture : String
  deriving Repr, DecidableEq

/-- The resolution step of `oauthUseCase.HandleGoogleCallback`
(`oauth_usecase.go` lines 61-96), after the external exchange-code and
fetch-user-info collaborators have produced `userInfo`: (1) hit on
provider+external-id ⇒ return that user unchanged; (2) hit on email ⇒ link
the OAuth identity in place, backfill the avatar only if absent, persist;
(3) otherwise create a new OAuth-only account (uuid passed in as `newID`).
This definition is the in-place linking mutation of branch (2): set the
provider and external id, backfilling the avatar only if the account has
none. -/
def linkGoogle (existingUser : User) (userInfo : GoogleUserInfo) : User :=
  { existingUser with
    OAuthProvider := "google"
    OAuthID := userInfo.ID
    Avatar := if existingUser.Avatar == "" then userInfo.Picture
              else existingUser.Avatar }

/-- The branching of `oauthUseCase.HandleGoogleCallback` itself, resolving
in the priority order (1) provider+external-id, (2) email (link in place via
`linkGoogle` and persist), (3) create a new OAuth-only account. -/
def HandleGoogleCallback (s : UserStore) (userInfo : GoogleUserInfo)
    (newID : String) (now : Instant) : User × UserStore :=
  match getByOAuthID s "google" userInfo.ID with
  | some existingUser => (existingUser, s)
  | none =>
    match getByEmail s userInfo.Email with
    | some existingUser =>
      let linked := linkGoogle existingUser userInfo
      (linked, updateUser s linked)
    | none =>
      let newUser := NewOAuthUser userInfo.Email userInfo.Name userInfo.Picture
        "google" userInfo.ID newID now
      (newUser, createUser s newUser)

/-! ## Concrete fixtures used by witnesses and counterexamples -/

/-- A password-registered user with no OAuth identity; the remaining fields
take the values `Register` would leave them with. -/
def mkPasswordUser (id email password : String) (verified : Bool) : User :=
  { ID := id
    Email := email
    Password := bcryptHash password
    Name := "Alice"
    Avatar := ""
    Phone := "000"
    OAuthProvider := ""
    OAuthID := ""
    EmailVerified := verified
    VerificationToken := ""
    VerificationTokenExpiresAt := 0
    ResetPasswordToken := ""
    ResetPasswordTokenExpiresAt := 0
    CreatedAt := 0
    UpdatedAt := 0 }

/-- A linked account: it holds both a bcrypt password hash and a full OAuth
identity (the state produced by the email-linking branch of
`HandleGoogleCallback` on a password-registered account). -/
def mkLinkedUser (id email password provider oauthID : String) : User :=
  { mkPasswordUser id email password true with
    OAuthProvider := provider
    OAuthID := oauthID }

/-- A small concrete JWT service configuration. -/
def sampleSvc : JwtService :=
  { secretKey := "test-secret"
    accessTokenExpireMinutes := 15
    refreshTokenExpireDays := 7 }

/-! ## C1 — order of the email-verification check in Login -/

/-- C1, counterexample.  The claim says that for a stored password-holding
user whose email is unverified, `Login` with a non-matching password returns
`InvalidCredentials`.  In the code the `EmailVerified` check precedes the
bcrypt comparison, so the call returns `EmailNotVerified` instead: the
supplied password `"wrongpw"` does not verify against the stored hash of
`"rightpw"`, yet the error is `EmailNotVerified`. -/
theorem c1_counterexample :
    (Login [mkPasswordUser "u1" "a@x.com" "rightpw" false] "a@x.com" "wrongpw").1
        = .error .emailNotVerified ∧
    bcryptCompare (mkPasswordUser "u1" "a@x.com" "rightpw" false).Password "wrongpw"
        = false ∧
    (Login [mkPasswordUser "u1" "a@x.com" "rightpw" false] "a@x.com" "wrongpw").1
        ≠ .error .invalidCredentials := by
  refine ⟨rfl, by decide, ?_⟩
  intro h
  simp [Login, getByEmail, mkPasswordUser, User.IsOAuthUser] at h

/-- C1, amended.  In `Login` the email-verification check happens before the
credential match: an unknown email yields `InvalidCredentials`; a non-OAuth
user with an unverified email yields `EmailNotVerified` whatever password is
supplied; only for a verified non-OAuth user is the password compared,
yielding `InvalidCredentials` on mismatch and success on match. -/
theorem c1_login_order (s : UserStore) (email password : String) :
    (getByEmail s email = none →
      Login s email password = (.error .invalidCredentials, s)) ∧
    (∀ u, getByEmail s email = some u → u.IsOAuthUser = false →
      u.EmailVerified = false →
      Login s email password = (.error .emailNotVerified, s)) ∧
    (∀ u, getByEmail s email = some u → u.IsOAuthUser = false →
      u.EmailVerified = true → bcryptCompare u.Password password = false →
      Login s email password = (.error .invalidCredentials, s)) ∧
    (∀ u, getByEmail s email = some u → u.IsOAuthUser = false →
      u.EmailVerified = true → bcryptCompare u.Password password = true →
      Login s email password = (.ok u, s)) := by
  refine ⟨?_, ?_, ?_, ?_⟩
  · intro h
    simp [Login, h]
  · intro u hu hoauth hver
    simp [Login, hu, hoauth, hver]
  · intro u hu hoauth hver hpw
    simp [Login, hu, hoauth, hver, hpw]
  · intro u hu hoauth hver hpw
    simp [Login, hu, hoauth, hver, hpw]

/-- C1, witness: the amended theorem evaluated on a one-user store, covering
the unverified branch and the two verified branches. -/
theorem c1_login_order_witness :
    Login [mkPasswordUser "u1" "a@x.com" "rightpw" false] "a@x.com" "wrongpw"
        = (.error .emailNotVerified, [mkPasswordUser "u1" "a@x.com" "rightpw" false]) ∧
    Login [mkPasswordUser "u2" "b@x.com" "pw12345678" true] "b@x.com" "nope"
        = (.error .invalidCredentials, [mkPasswordUser "u2" "b@x.com" "pw12345678" true]) ∧
    Login [mkPasswordUser "u2" "b@x.com" "pw12345678" true] "b@x.com" "pw12345678"
        = (.ok (mkPasswordUser "u2" "b@x.com" "pw12345678" true),
           [mkPasswordUser "u2" "b@x.com" "pw12345678" true]) := by
  refine ⟨?_, ?_, ?_⟩
  · exact (c1_login_order _ _ _).2.1 (mkPasswordUser "u1" "a@x.com" "rightpw" false)
      (by decide) (by decide) (by decide)
  · exact (c1_login_order _ _ _).2.2.1 (mkPasswordUser "u2" "b@x.com" "pw12345678" true)
      (by decide) (by decide) (by decide) (by decide)
  · exact (c1_login_order _ _ _).2.2.2 (mkPasswordUser "u2" "b@x.com" "pw12345678" true)
      (by decide) (by decide) (by decide) (by decide)

/-! ## C8 — which accounts Login rejects as OAuth accounts -/

/-- C8, counterexample.  The claim says that a linked account holding both a
password hash and an OAuth identity is not rejected on the OAuth ground and
proceeds to password verification.  In the code `IsOAuthUser` only inspects
the OAuth fields, so this linked, verified user is rejected with the OAuth
error even though the supplied password matches the stored hash. -/
theorem c8_counterexample :
    (Login [mkLinkedUser "u3" "c@x.com" "pw12345678" "google" "g-77"]
        "c@x.com" "pw12345678").1 = .error .oauthAccount ∧
    (mkLinkedUser "u3" "c@x.com" "pw12345678" "google" "g-77").Password
        = bcryptHash "pw12345678" ∧
    bcryptCompare (mkLinkedUser "u3" "c@x.com" "pw12345678" "google" "g-77").Password
        "pw12345678" = true := by
  refine ⟨rfl, by decide, by decide⟩

/-- C8, amended.  `Login` returns the OAuth-account error exactly for the
accounts whose `OAuthProvider` and `OAuthID` are both non-empty
(`IsOAuthUser`), regardless of whether a password hash is also stored: a
linked account with both credentials is rejected on this ground, while an
account lacking a full OAuth identity proceeds past this check. -/
theorem c8_oauth_rejection (s : UserStore) (email password : String) (u : User)
    (hu : getByEmail s email = some u) :
    (Login s email password).1 = .error .oauthAccount ↔ u.IsOAuthUser = true := by
  constructor
  · intro h
    by_contra hoauth
    simp only [Bool.not_eq_true] at hoauth
    rcases hver : u.EmailVerified with _ | _ <;>
      rcases hpw : bcryptCompare u.Password password with _ | _ <;>
      simp [Login, hu, hoauth, hver, hpw] at h
  · intro h
    simp [Login, hu, h]

/-- C8, witness: the amended theorem evaluated on the linked account (both
credentials present, rejected) and on a password-only account (not
rejected). -/
theorem c8_oauth_rejection_witness :
    (Login [mkLinkedUser "u3" "c@x.com" "pw12345678" "google" "g-77"]
        "c@x.com" "pw12345678").1 = .error .oauthAccount ∧
    ¬ (Login [mkPasswordUser "u2" "b@x.com" "pw12345678" true]
        "b@x.com" "pw12345678").1 = .error .oauthAccount := by
  constructor
  · exact (c8_oauth_rejection _ _ _
      (mkLinkedUser "u3" "c@x.com" "pw12345678" "google" "g-77") (by decide)).mpr
      (by decide)
  · intro h
    exact absurd ((c8_oauth_rejection _ "b@x.com" "pw12345678"
      (mkPasswordUser "u2" "b@x.com" "pw12345678" true) (by decide)).mp h) (by decide)

/-! ## C2 — classification of expired tokens by ValidateToken -/

/-- C2, failing input.  The claim (and the spec) say a well-formed, correctly
signed token of the expected type whose expiry has passed fails with
`TokenExpired`.  In the code every `jwt.ParseWithClaims` error is mapped to
`ErrInvalidToken`, and golang-jwt v5 validates the `exp` claim during the
parse itself (no `WithoutClaimsValidation` option is passed), so an expired
token never reaches the dedicated `ErrTokenExpired` branch: here an access
token issued at time 0 with a 15-minute TTL, validated with the expected
type one hour later, yields `InvalidToken`.  The second conjunct shows no
input at all can make `ValidateToken` return `TokenExpired`: the branch is
dead code. -/
theorem c2_expired_token_misclassified :
    ValidateToken sampleSvc (GenerateAccessToken sampleSvc "user-1" 0)
        TokenType.access hourNs = .error .invalidToken ∧
    ∀ (svc : JwtService) (tok : SignedToken) (expectedType : TokenType)
      (now : Instant),
      ValidateToken svc tok expectedType now ≠ .error .tokenExpired := by
  constructor
  · rfl
  · intro svc tok expectedType now h
    rw [ValidateToken] at h
    rcases hp : parseWithClaims tok svc.secretKey now with _ | claims
    · simp [hp] at h
    · have hexp : ¬ claims.expiresAt < now := by
        rw [parseWithClaims] at hp
        split at hp
        · exact absurd hp (by simp)
        · split at hp
          · exact absurd hp (by simp)
          · split at hp
            · exact absurd hp (by simp)
            · split at hp
              · exact absurd hp (by simp)
              · rename_i hm hk he hn
                cases hp
                exact he
      simp [hp, hexp] at h
      split at h <;> simp_all

/-! ## C5 — token type is enforced at validation -/

/-- C5.  For every user id, validating a freshly issued access token with
expected type `access` succeeds and the returned claims carry that user id,
while validating it with expected type `refresh` fails with `InvalidToken`;
symmetrically for refresh tokens.  Positive TTL configuration is assumed, as
both TTLs are positive in any real configuration. -/
theorem c5_token_type_enforced (svc : JwtService) (u : String) (t : Instant)
    (hacc : 0 < svc.accessTokenExpireMinutes)
    (href : 0 < svc.refreshTokenExpireDays) :
    ValidateToken svc (GenerateAccessToken svc u t) TokenType.access t
        = .ok (GenerateAccessToken svc u t).claims ∧
    (GenerateAccessToken svc u t).claims.userID = u ∧
    ValidateToken svc (GenerateAccessToken svc u t) TokenType.refresh t
        = .error .invalidToken ∧
    ValidateToken svc (GenerateRefreshToken svc u t) TokenType.refresh t
        = .ok (GenerateRefreshToken svc u t).claims ∧
    (GenerateRefreshToken svc u t).claims.userID = u ∧
    ValidateToken svc (GenerateRefreshToken svc u t) TokenType.access t
        = .error .invalidToken := by
  have haccDur : (0:Int) ≤ minuteNs * svc.accessTokenExpireMinutes := by
    have hm : (0:Int) < minuteNs := by norm_num [minuteNs]
    exact mul_nonneg hm.le hacc.le
  have hrefDur : (0:Int) ≤ dayNs * svc.refreshTokenExpireDays := by
    have hd : (0:Int) < dayNs := by norm_num [dayNs, hourNs, minuteNs]
    exact mul_nonneg hd.le href.le
  have h1 : ¬ (t + minuteNs * svc.accessTokenExpireMinutes < t) :=
    not_lt.mpr (le_add_of_nonneg_right haccDur)
  have h2 : ¬ (t + dayNs * svc.refreshTokenExpireDays < t) :=
    not_lt.mpr (le_add_of_nonneg_right hrefDur)
  refine ⟨?_, rfl, ?_, ?_, rfl, ?_⟩ <;>
    simp [ValidateToken, parseWithClaims, GenerateAccessToken,
      GenerateRefreshToken, generateToken, h1, h2]

/-- C5, witness: both directions evaluated on the sample service at a
concrete user id and instant. -/
theorem c5_token_type_enforced_witness :
    ValidateToken sampleSvc (GenerateAccessToken sampleSvc "u-42" 1000)
        TokenType.access 1000
        = .ok (GenerateAccessToken sampleSvc "u-42" 1000).claims ∧
    (GenerateAccessToken sampleSvc "u-42" 1000).claims.userID = "u-42" ∧
    ValidateToken sampleSvc (GenerateAccessToken sampleSvc "u-42" 1000)
        TokenType.refresh 1000 = .error .invalidToken ∧
    ValidateToken sampleSvc (GenerateRefreshToken sampleSvc "u-42" 1000)
        TokenType.refresh 1000
        = .ok (GenerateRefreshToken sampleSvc "u-42" 1000).claims ∧
    (GenerateRefreshToken sampleSvc "u-42" 1000).claims.userID = "u-42" ∧
    ValidateToken sampleSvc (GenerateRefreshToken sampleSvc "u-42" 1000)
        TokenType.access 1000 = .error .invalidToken :=
  c5_token_type_enforced sampleSvc "u-42" 1000 (by decide) (by decide)

/-! ## C3 — ForgotPassword and enumeration safety -/

/-- C3, counterexample.  The claim says `ForgotPassword` returns success
regardless of internal outcome, including failures of the collaborators it
invokes.  When the email matches a non-OAuth user and the reset-email
collaborator fails, the code returns that failure as an error (and the reset
token has already been persisted). -/
theorem c3_counterexample :
    (ForgotPassword [mkPasswordUser "u2" "b@x.com" "pw12345678" true]
        "b@x.com" 0 "reset-tok-1" false).1 = .error .emailSendFailed := by
  rfl

/-- C3, amended.  `ForgotPassword` returns success with no store change for
an unknown email (no reset token is issued for any user) and for an
OAuth-only account; when the email matches a non-OAuth user it persists a
fresh reset token with a 1-hour window and then returns success only if the
reset-email send succeeds, propagating the send failure as an error
otherwise. -/
theorem c3_forgot_password (s : UserStore) (email newToken : String)
    (now : Instant) (emailOk : Bool) :
    (getByEmail s email = none →
      ForgotPassword s email now newToken emailOk = (.ok (), s)) ∧
    (∀ u, getByEmail s email = some u → u.IsOAuthUser = true →
      ForgotPassword s email now newToken emailOk = (.ok (), s)) ∧
    (∀ u, getByEmail s email = some u → u.IsOAuthUser = false →
      ForgotPassword s email now newToken emailOk =
        ((if emailOk then .ok () else .error .emailSendFailed),
         updateUser s { u with
           ResetPasswordToken := newToken
           ResetPasswordTokenExpiresAt := now + hourNs })) := by
  refine ⟨?_, ?_, ?_⟩
  · intro h
    simp [ForgotPassword, h]
  · intro u hu hoauth
    simp [ForgotPassword, hu, hoauth]
  · intro u hu hoauth
    rcases emailOk with _ | _ <;> simp [ForgotPassword, hu, hoauth]

/-- C3, witness: the amended theorem evaluated for an unknown email (success,
store untouched) and for a known non-OAuth user with a failing email
collaborator (error, token persisted). -/
theorem c3_forgot_password_witness :
    ForgotPassword [mkPasswordUser "u2" "b@x.com" "pw12345678" true]
        "unknown@x.com" 0 "reset-tok-1" true
        = (.ok (), [mkPasswordUser "u2" "b@x.com" "pw12345678" true]) ∧
    ForgotPassword [mkPasswordUser "u2" "b@x.com" "pw12345678" true]
        "b@x.com" 0 "reset-tok-1" false
        = (.error .emailSendFailed,
           updateUser [mkPasswordUser "u2" "b@x.com" "pw12345678" true]
             { mkPasswordUser "u2" "b@x.com" "pw12345678" true with
               ResetPasswordToken := "reset-tok-1"
               ResetPasswordTokenExpiresAt := 0 + hourNs }) := by
  constructor
  · exact (c3_forgot_password _ _ _ _ _).1 (by decide)
  · exact (c3_forgot_password _ _ _ _ _).2.2
      (mkPasswordUser "u2" "b@x.com" "pw12345678" true) (by decide) (by decide)

/-! ## C6 — VerifyEmail success and idempotence -/

/-- C6.  If the supplied token resolves to a stored user and the stored
expiry has not passed, then: when the user is not yet verified, `VerifyEmail`
succeeds and the only store change replaces that user with a copy whose
`EmailVerified` flag is set and whose verification token and expiry are
cleared; when the user is already verified, `VerifyEmail` succeeds and
leaves the store exactly as it was (idempotent no-op). -/
theorem c6_verify_email (s : UserStore) (token : String) (now : Instant)
    (u : User) (hu : getByVerificationToken s token = some u)
    (hexp : ¬ u.VerificationTokenExpiresAt < now) :
    (u.EmailVerified = false →
      VerifyEmail s token now =
        (.ok (), updateUser s { u with
          EmailVerified := true
          VerificationToken := ""
          VerificationTokenExpiresAt := 0 })) ∧
    (u.EmailVerified = true →
      VerifyEmail s token now = (.ok (), s)) := by
  constructor
  · intro hver
    simp [VerifyEmail, hu, hexp, hver]
  · intro hver
    simp [VerifyEmail, hu, hexp, hver]

/-- C6, witness: a one-user store with a live verification token; the first
call flips the flag and clears the token fields, and the call on an
already-verified user with a live token is a no-op success. -/
theorem c6_verify_email_witness :
    VerifyEmail [{ mkPasswordUser "u1" "a@x.com" "pw12345678" false with
        VerificationToken := "vtok-1", VerificationTokenExpiresAt := 100 }]
        "vtok-1" 50
      = (.ok (), updateUser
          [{ mkPasswordUser "u1" "a@x.com" "pw12345678" false with
             VerificationToken := "vtok-1", VerificationTokenExpiresAt := 100 }]
          { { mkPasswordUser "u1" "a@x.com" "pw12345678" false with
              VerificationToken := "vtok-1", VerificationTokenExpiresAt := 100 } with
            EmailVerified := true
            VerificationToken := ""
            VerificationTokenExpiresAt := 0 }) ∧
    VerifyEmail [{ mkPasswordUser "u1" "a@x.com" "pw12345678" true with
        VerificationToken := "vtok-1", VerificationTokenExpiresAt := 100 }]
        "vtok-1" 50
      = (.ok (), [{ mkPasswordUser "u1" "a@x.com" "pw12345678" true with
          VerificationToken := "vtok-1", VerificationTokenExpiresAt := 100 }]) := by
  constructor
  · exact (c6_verify_email _ _ _
      { mkPasswordUser "u1" "a@x.com" "pw12345678" false with
        VerificationToken := "vtok-1", VerificationTokenExpiresAt := 100 }
      (by decide) (by decide)).1 (by decide)
  · exact (c6_verify_email _ _ _
      { mkPasswordUser "u1" "a@x.com" "pw12345678" true with
        VerificationToken := "vtok-1", VerificationTokenExpiresAt := 100 }
      (by decide) (by decide)).2 (by decide)

/-! ## C7 — ResetPassword replaces the hash and burns the token -/

/-- After `updateUser` replaces the token holder with a copy whose reset
token no longer matches, no row matches the captured token any more
(assuming the captured token identified that single user). -/
lemma getByResetPasswordToken_after_clear (s : UserStore) (u u' : User)
    (t : String) (hid : u'.ID = u.ID) (hu' : u'.ResetPasswordToken ≠ t)
    (huniq : ∀ v ∈ s, v.ResetPasswordToken = t → v = u) :
    getByResetPasswordToken (updateUser s u') t = none := by
  rw [getByResetPasswordToken, List.find?_eq_none]
  intro x hx hmatch
  rw [beq_iff_eq] at hmatch
  rw [updateUser, List.mem_map] at hx
  obtain ⟨v, hv, hveq⟩ := hx
  by_cases hvid : v.ID = u'.ID
  · rw [if_pos (by simpa using hvid)] at hveq
    have hx' : x = u' := hveq.symm
    rw [hx'] at hmatch
    exact hu' hmatch
  · rw [if_neg (by simpa using hvid)] at hveq
    have hx' : x = v := hveq.symm
    rw [hx'] at hmatch
    have hvu : v = u := huniq v hv hmatch
    exact hvid (by rw [hvu, ← hid])

/-- C7.  If the captured token `t` resolves to the single user `u` holding it
and the stored expiry has not passed, `ResetPassword t newPw` succeeds,
replacing in one store update the user's password by the hash of `newPw`
and clearing the reset token and its expiry; a subsequent `ResetPassword`
with the same captured token then fails with `InvalidResetToken`. -/
theorem c7_reset_password_single_use (s : UserStore) (t newPw newPw2 : String)
    (now now2 : Instant) (u : User)
    (hfind : getByResetPasswordToken s t = some u)
    (hexp : ¬ u.ResetPasswordTokenExpiresAt < now)
    (ht : t ≠ "")
    (huniq : ∀ v ∈ s, v.ResetPasswordToken = t → v = u) :
    ResetPassword s t newPw now =
      (.ok (), updateUser s { u with
        Password := bcryptHash newPw
        ResetPasswordToken := ""
        ResetPasswordTokenExpiresAt := 0 }) ∧
    (ResetPassword (updateUser s { u with
        Password := bcryptHash newPw
        ResetPasswordToken := ""
        ResetPasswordTokenExpiresAt := 0 }) t newPw2 now2)
      = (.error .invalidResetToken,
         updateUser s { u with
           Password := bcryptHash newPw
           ResetPasswordToken := ""
           ResetPasswordTokenExpiresAt := 0 }) := by
  have hnone := getByResetPasswordToken_after_clear s u
    { u with
      Password := bcryptHash newPw
      ResetPasswordToken := ""
      ResetPasswordTokenExpiresAt := 0 }
    t rfl (Ne.symm ht) huniq
  constructor
  · simp [ResetPassword, hfind, hexp]
  · simp [ResetPassword, hnone]

/-- C7, witness: a single user holding the live reset token `"rt-1"`; the
first reset succeeds and rewrites the record, the replayed reset fails. -/
theorem c7_reset_password_single_use_witness :
    ResetPassword [{ mkPasswordUser "u2" "b@x.com" "pw12345678" true with
        ResetPasswordToken := "rt-1", ResetPasswordTokenExpiresAt := 100 }]
        "rt-1" "newpw99" 50
      = (.ok (), updateUser
          [{ mkPasswordUser "u2" "b@x.com" "pw12345678" true with
             ResetPasswordToken := "rt-1", ResetPasswordTokenExpiresAt := 100 }]
          { { mkPasswordUser "u2" "b@x.com" "pw12345678" true with
              ResetPasswordToken := "rt-1", ResetPasswordTokenExpiresAt := 100 } with
            Password := bcryptHash "newpw99"
            ResetPasswordToken := ""
            ResetPasswordTokenExpiresAt := 0 }) ∧
    (ResetPassword (updateUser
          [{ mkPasswordUser "u2" "b@x.com" "pw12345678" true with
             ResetPasswordToken := "rt-1", ResetPasswordTokenExpiresAt := 100 }]
          { { mkPasswordUser "u2" "b@x.com" "pw12345678" true with
              ResetPasswordToken := "rt-1", ResetPasswordTokenExpiresAt := 100 } with
            Password := bcryptHash "newpw99"
            ResetPasswordToken := ""
            ResetPasswordTokenExpiresAt := 0 }) "rt-1" "evilpw" 60).1
      = .error .invalidResetToken := by
  have h := c7_reset_password_single_use
    [{ mkPasswordUser "u2" "b@x.com" "pw12345678" true with
       ResetPasswordToken := "rt-1", ResetPasswordTokenExpiresAt := 100 }]
    "rt-1" "newpw99" "evilpw" 50 60
    { mkPasswordUser "u2" "b@x.com" "pw12345678" true with
      ResetPasswordToken := "rt-1", ResetPasswordTokenExpiresAt := 100 }
    (by decide) (by decide) (by decide) (by decide)
  exact ⟨h.1, by rw [h.2]⟩

/-! ## C10 — failed calls leave the user store untouched -/

/-- C10.  Whenever `Login`, `VerifyEmail` or `ResetPassword` returns an
error (in particular any of the domain errors: invalid credentials, email
not verified, invalid or expired verification token, invalid or expired
reset token), the user store after the call is exactly the store before it;
only successful calls ever update a record. -/
theorem c10_no_update_on_error (s : UserStore)
    (email password vtoken rtoken newPw : String) (now : Instant) :
    (∀ e, (Login s email password).1 = .error e →
      (Login s email password).2 = s) ∧
    (∀ e, (VerifyEmail s vtoken now).1 = .error e →
      (VerifyEmail s vtoken now).2 = s) ∧
    (∀ e, (ResetPassword s rtoken newPw now).1 = .error e →
      (ResetPassword s rtoken newPw now).2 = s) := by
  refine ⟨?_, ?_, ?_⟩
  · intro e _
    rw [Login]
    rcases getByEmail s email with _ | u
    · rfl
    · dsimp only
      split_ifs <;> rfl
  · intro e h
    rw [VerifyEmail] at h ⊢
    rcases hv : getByVerificationToken s vtoken with _ | u
    · simp [hv]
    · simp only [hv] at h ⊢
      split_ifs at h ⊢
      all_goals simp_all
  · intro e h
    rw [ResetPassword] at h ⊢
    rcases hr : getByResetPasswordToken s rtoken with _ | u
    · simp [hr]
    · simp only [hr] at h ⊢
      split_ifs at h ⊢
      all_goals simp_all

/-- C10, witness: each operation evaluated on a failing input over a
concrete store; the store comes back unchanged. -/
theorem c10_no_update_on_error_witness :
    (Login [mkPasswordUser "u1" "a@x.com" "rightpw" false] "a@x.com" "wrongpw").2
      = [mkPasswordUser "u1" "a@x.com" "rightpw" false] ∧
    (VerifyEmail [mkPasswordUser "u1" "a@x.com" "rightpw" false] "no-such-token" 0).2
      = [mkPasswordUser "u1" "a@x.com" "rightpw" false] ∧
    (ResetPassword [mkPasswordUser "u1" "a@x.com" "rightpw" false]
        "no-such-token" "newpw" 0).2
      = [mkPasswordUser "u1" "a@x.com" "rightpw" false] := by
  refine ⟨?_, ?_, ?_⟩
  · exact (c10_no_update_on_error _ "a@x.com" "wrongpw" "x" "y" "z" 0).1
      .emailNotVerified rfl
  · exact (c10_no_update_on_error _ "a" "b" "no-such-token" "y" "z" 0).2.1
      .invalidVerificationToken rfl
  · exact (c10_no_update_on_error _ "a" "b" "x" "no-such-token" "newpw" 0).2.2
      .invalidResetToken rfl

/-! ## C4 — the refresh/rotation protocol -/

/-- C4.  A refresh request succeeds only if the presented token (a) passes
JWT validation as a refresh token, (b) is found in the store unrevoked and
unexpired — a missing record fails as `RefreshTokenNotFound`, a revoked one
as `TokenRevoked`, an expired one as `TokenExpired` — and (c) carries a user
id equal to the store record's owning user id (else a 401 rejection).  On
success the old store record is revoked and a freshly issued access+refresh
pair is returned, with the new refresh token persisted. -/
theorem c4_refresh_rotation (svc : JwtService) (store : RefreshStore)
    (req : SignedToken) (now : Instant) (newID : String) :
    (∀ e, ValidateToken svc req TokenType.refresh now = .error e →
      RefreshTokenEndpoint svc store req now newID = (.error e, store)) ∧
    (∀ claims, ValidateToken svc req TokenType.refresh now = .ok claims →
      (getRefreshByToken store req = none →
        RefreshTokenEndpoint svc store req now newID
          = (.error .refreshTokenNotFound, store)) ∧
      (∀ rt, getRefreshByToken store req = some rt →
        (∀ ts, rt.revokedAt = some ts →
          RefreshTokenEndpoint svc store req now newID
            = (.error .tokenRevoked, store)) ∧
        (rt.revokedAt = none → ¬ now < rt.expiresAt →
          RefreshTokenEndpoint svc store req now newID
            = (.error .tokenExpired, store)) ∧
        (rt.revokedAt = none → now < rt.expiresAt → rt.userID ≠ claims.userID →
          RefreshTokenEndpoint svc store req now newID
            = (.error .unauthorized, store)) ∧
        (rt.revokedAt = none → now < rt.expiresAt → rt.userID = claims.userID →
          RefreshTokenEndpoint svc store req now newID
            = (.ok (GenerateAccessToken svc claims.userID now,
                    GenerateRefreshToken svc claims.userID now),
               createRefreshToken (revokeRefreshToken store req now)
                 claims.userID (GenerateRefreshToken svc claims.userID now)
                 (now + GetRefreshTokenExpiration svc) newID now)))) := by
  refine ⟨?_, ?_⟩
  · intro e h
    simp [RefreshTokenEndpoint, h]
  · intro claims hval
    refine ⟨?_, ?_⟩
    · intro hget
      simp [RefreshTokenEndpoint, hval, ValidateRefreshToken, hget]
    · intro rt hget
      refine ⟨?_, ?_, ?_, ?_⟩
      · intro ts hrev
        simp [RefreshTokenEndpoint, hval, ValidateRefreshToken, hget,
          RefreshTokenRec.IsValid, hrev]
      · intro hrev hexp
        simp [RefreshTokenEndpoint, hval, ValidateRefreshToken, hget,
          RefreshTokenRec.IsValid, hrev, hexp]
      · intro hrev hexp huid
        simp [RefreshTokenEndpoint, hval, ValidateRefreshToken, hget,
          RefreshTokenRec.IsValid, hrev, hexp, huid]
      · intro hrev hexp huid
        simp [RefreshTokenEndpoint, hval, ValidateRefreshToken, hget,
          RefreshTokenRec.IsValid, hrev, hexp, huid]

/-- The refresh JWT presented in the C4 witness scenario. -/
def sampleRefreshJwt : SignedToken := GenerateRefreshToken sampleSvc "u-42" 0

/-- The C4 witness store: the single unrevoked record persisted for
`sampleRefreshJwt` at login time. -/
def sampleRefreshStore : RefreshStore :=
  [NewRefreshToken "u-42" sampleRefreshJwt
    (0 + GetRefreshTokenExpiration sampleSvc) "rid-1" 0]

/-- C4, witness: the full success path evaluated on the sample store — the
presented token passes all three checks, the old record is revoked and the
rotated pair is issued and persisted. -/
theorem c4_refresh_rotation_witness :
    RefreshTokenEndpoint sampleSvc sampleRefreshStore sampleRefreshJwt 1000 "rid-2"
      = (.ok (GenerateAccessToken sampleSvc "u-42" 1000,
              GenerateRefreshToken sampleSvc "u-42" 1000),
         createRefreshToken (revokeRefreshToken sampleRefreshStore sampleRefreshJwt 1000)
           "u-42" (GenerateRefreshToken sampleSvc "u-42" 1000)
           (1000 + GetRefreshTokenExpiration sampleSvc) "rid-2" 1000) :=
  ((((c4_refresh_rotation sampleSvc sampleRefreshStore sampleRefreshJwt 1000
      "rid-2").2 sampleRefreshJwt.claims rfl).2
    (NewRefreshToken "u-42" sampleRefreshJwt
      (0 + GetRefreshTokenExpiration sampleSvc) "rid-1" 0) rfl).2.2.2
    rfl (by decide) rfl)

/-! ## C9 — OAuth callback resolution priority and idempotence -/

/-- If no row of `s` satisfies `p`, the row with the token holder's id
replaced by `u'` (which satisfies `p`) is the first and only match of the
updated store, provided some row carries `u'.ID`. -/
lemma find?_updateUser_of_none (s : UserStore) (u u' : User) (p : User → Bool)
    (hmem : u ∈ s) (hid : u'.ID = u.ID)
    (hnone : s.find? p = none) (hp : p u' = true) :
    (updateUser s u').find? p = some u' := by
  induction s with
  | nil => cases hmem
  | cons v tl ih =>
    rw [List.find?_eq_none] at hnone
    have hv : p v = false := by
      have := hnone v (by simp)
      simpa using this
    by_cases hvid : (v.ID == u'.ID) = true
    · rw [updateUser, List.map_cons, if_pos hvid]
      exact List.find?_cons_of_pos _ hp
    · have hvu : u ∈ tl := by
        rcases List.mem_cons.mp hmem with huv | htl
        · exfalso
          apply hvid
          rw [beq_iff_eq, hid, huv]
        · exact htl
      have htlnone : tl.find? p = none := by
        rw [List.find?_eq_none]
        intro x hx
        exact hnone x (List.mem_cons_of_mem _ hx)
      have := ih hvu htlnone
      rw [updateUser, List.map_cons, if_neg hvid]
      rw [List.find?_cons_of_neg _ (by simp [hv])]
      exact this

/-- After any `HandleGoogleCallback`, the lookup on provider `"google"` and
the callback's external id hits exactly the user the callback returned. -/
lemma getByOAuthID_after_callback (s : UserStore) (userInfo : GoogleUserInfo)
    (newID : String) (now : Instant) :
    getByOAuthID (HandleGoogleCallback s userInfo newID now).2 "google" userInfo.ID
      = some (HandleGoogleCallback s userInfo newID now).1 := by
  rw [HandleGoogleCallback]
  rcases h1 : getByOAuthID s "google" userInfo.ID with _ | u
  · rcases h2 : getByEmail s userInfo.Email with _ | u
    · dsimp only
      rw [getByOAuthID, createUser, List.find?_append]
      rw [getByOAuthID] at h1
      rw [h1]
      simp [NewOAuthUser]
    · dsimp only
      rw [getByOAuthID]
      exact find?_updateUser_of_none s u (linkGoogle u userInfo) _
        (List.mem_of_find?_eq_some h2) rfl h1 (by simp [linkGoogle])
  · simp [h1]

/-- C9.  `HandleGoogleCallback` resolves in priority order — (1) a hit on
provider+external-id returns that user with the store unchanged; (2)
otherwise a hit on email links the OAuth identity in place (provider and
external id set, avatar backfilled only if absent, per `linkGoogle`) and
persists it; (3) otherwise a new passwordless account is created and
persisted — and consequently a second callback carrying the same external id
returns the same user id and leaves the store unchanged (no duplicate). -/
theorem c9_oauth_callback_resolution (s : UserStore) (userInfo : GoogleUserInfo)
    (id1 id2 : String) (t1 t2 : Instant) :
    (∀ u, getByOAuthID s "google" userInfo.ID = some u →
      HandleGoogleCallback s userInfo id1 t1 = (u, s)) ∧
    (getByOAuthID s "google" userInfo.ID = none →
      ∀ u, getByEmail s userInfo.Email = some u →
        HandleGoogleCallback s userInfo id1 t1
          = (linkGoogle u userInfo, updateUser s (linkGoogle u userInfo))) ∧
    (getByOAuthID s "google" userInfo.ID = none →
      getByEmail s userInfo.Email = none →
        HandleGoogleCallback s userInfo id1 t1
          = (NewOAuthUser userInfo.Email userInfo.Name userInfo.Picture
               "google" userInfo.ID id1 t1,
             createUser s (NewOAuthUser userInfo.Email userInfo.Name
               userInfo.Picture "google" userInfo.ID id1 t1))) ∧
    (HandleGoogleCallback (HandleGoogleCallback s userInfo id1 t1).2 userInfo id2 t2
      = ((HandleGoogleCallback s userInfo id1 t1).1,
         (HandleGoogleCallback s userInfo id1 t1).2)) := by
  refine ⟨?_, ?_, ?_, ?_⟩
  · intro u h
    simp [HandleGoogleCallback, h]
  · intro h1 u h2
    simp [HandleGoogleCallback, h1, h2]
  · intro h1 h2
    simp [HandleGoogleCallback, h1, h2]
  · rw [HandleGoogleCallback, getByOAuthID_after_callback s userInfo id1 t1]

/-- C9, witness: a password-registered account is linked by the first
callback (branch 2 with hypotheses discharged on a concrete store), and the
second callback with the same external id returns the same user and changes
nothing. -/
theorem c9_oauth_callback_resolution_witness :
    HandleGoogleCallback [mkPasswordUser "u2" "b@x.com" "pw12345678" true]
        { ID := "g-77", Email := "b@x.com", Name := "Alice", Picture := "p.png" }
        "n1" 7
      = (linkGoogle (mkPasswordUser "u2" "b@x.com" "pw12345678" true)
           { ID := "g-77", Email := "b@x.com", Name := "Alice", Picture := "p.png" },
         updateUser [mkPasswordUser "u2" "b@x.com" "pw12345678" true]
           (linkGoogle (mkPasswordUser "u2" "b@x.com" "pw12345678" true)
             { ID := "g-77", Email := "b@x.com", Name := "Alice", Picture := "p.png" })) ∧
    HandleGoogleCallback
        (HandleGoogleCallback [mkPasswordUser "u2" "b@x.com" "pw12345678" true]
          { ID := "g-77", Email := "b@x.com", Name := "Alice", Picture := "p.png" }
          "n1" 7).2
        { ID := "g-77", Email := "b@x.com", Name := "Alice", Picture := "p.png" }
        "n2" 9
      = ((HandleGoogleCallback [mkPasswordUser "u2" "b@x.com" "pw12345678" true]
            { ID := "g-77", Email := "b@x.com", Name := "Alice", Picture := "p.png" }
            "n1" 7).1,
         (HandleGoogleCallback [mkPasswordUser "u2" "b@x.com" "pw12345678" true]
            { ID := "g-77", Email := "b@x.com", Name := "Alice", Picture := "p.png" }
            "n1" 7).2) := by
  constructor
  · exact (c9_oauth_callback_resolution _ _ "n1" "n2" 7 9).2.1 (by decide)
      (mkPasswordUser "u2" "b@x.com" "pw12345678" true) (by decide)
  · exact (c9_oauth_callback_resolution _ _ "n1" "n2" 7 9).2.2.2

end TkhanChat
